import Mathlib

/-!
Verification of the inbound-webhook normalization and resilient-delivery
pipeline of the agent-n8n-python repository.

The Python sources are shallowly embedded as Lean definitions:
- `src/services/evolution_api.py`: `padronizar_telefone`, the singleton
  instance pool (`_get_next_instance`) and `_make_request`;
- `src/message_processor.py`: the byte-acquisition stage of
  `MessageProcessor.audio_to_text` (base64 handling included);
- `src/main.py`: the `receive_message` webhook handler up to the point
  where it hands the extracted (sender, text) pair to the business logic.

JSON documents are modelled by the `Json` inductive below; Python dicts
are association lists (JSON parsing produces unique keys, lookups take the
first binding).  Operations that can raise return `Except PyErr`; external
collaborators (HTTP fetches, the transcription service) are oracle
parameters.  Machine details that no claim touches (logging, timestamps)
are dropped.
-/

set_option maxRecDepth 20000

/-- Python exception classes that the embedded code paths can raise. -/
inductive PyErr where
  | keyError
  | typeError
  | attributeError
  | indexError
  deriving Repr, DecidableEq

/-- JSON values as delivered by `request.json()` / `json.loads`.
Objects are association lists in document order. -/
inductive Json where
  | null
  | bool (b : Bool)
  | num (n : Int)
  | str (s : String)
  | arr (xs : List Json)
  | obj (kvs : List (String × Json))
  deriving Repr

/-- First binding of key `k` in an association list (Python dict lookup;
parsed JSON has unique keys). -/
def lookupL (kvs : List (String × Json)) (k : String) : Option Json :=
  (kvs.find? (fun p => p.1 == k)).map (fun p => p.2)

/-- Python `k in d` for a dict `d`. -/
def hasKeyL (kvs : List (String × Json)) (k : String) : Bool :=
  (lookupL kvs k).isSome

/-- Substring test over char lists, mirroring Python `needle in hay` on str. -/
def containsSub (needle : List Char) : List Char → Bool
  | [] => needle.isPrefixOf []
  | c :: rest => needle.isPrefixOf (c :: rest) || containsSub needle rest

/-- Python truthiness of a JSON value (`bool(x)`). -/
def truthy : Json → Bool
  | .null => false
  | .bool b => b
  | .num n => n != 0
  | .str s => s ≠ ""
  | .arr xs => !xs.isEmpty
  | .obj kvs => !kvs.isEmpty

/-- Python `k in x`.  Key membership on dicts, substring on strings,
element membership on lists (a str key only equals str elements),
`TypeError` on the remaining types. -/
def pyIn (k : String) : Json → Except PyErr Bool
  | .obj kvs => .ok (hasKeyL kvs k)
  | .str s => .ok (containsSub k.data s.data)
  | .arr xs => .ok (xs.any (fun e => match e with | .str s => s == k | _ => false))
  | _ => .error .typeError

/-- Python `x[k]` for a string key: dict lookup (`KeyError` when absent),
`TypeError` on every other type. -/
def pyGetItem (j : Json) (k : String) : Except PyErr Json :=
  match j with
  | .obj kvs =>
    match lookupL kvs k with
    | some v => .ok v
    | none => .error .keyError
  | _ => .error .typeError

/-- Python `x.get(k, default)`: only dicts have `.get`, anything else
raises `AttributeError`. -/
def pyGetD (j : Json) (k : String) (default : Json) : Except PyErr Json :=
  match j with
  | .obj kvs => .ok ((lookupL kvs k).getD default)
  | _ => .error .attributeError

/-- Python `x[k] = v` on a dict: replace the binding when the key exists,
append otherwise; `TypeError` on non-dicts. -/
def pySetKey (j : Json) (k : String) (v : Json) : Except PyErr Json :=
  match j with
  | .obj kvs =>
    .ok (.obj (if hasKeyL kvs k then kvs.map (fun p => if p.1 == k then (k, v) else p)
               else kvs ++ [(k, v)]))
  | _ => .error .typeError

/-- `str.upper()` restricted to the ASCII range the pipeline meets. -/
def pyUpper (s : String) : String := String.mk (s.data.map Char.toUpper)

/-- `'PENDING' in response.text.upper()` (evolution_api.py line 133). -/
def hasPending (text : String) : Bool :=
  containsSub "PENDING".data (pyUpper text).data

/-! ## Base64 decoding (message_processor.py lines 98-168)

`base64.b64decode` with default arguments: `binascii.a2b_base64` discards
characters outside the base64 alphabet, requires the kept length (padding
included) to be a multiple of 4, stops at the first `=`, and rejects a
data-character count that is 1 more than a multiple of 4. -/

/-- Value of a base64 alphabet character. -/
def b64CharVal (c : Char) : Option Nat :=
  if 'A' ≤ c ∧ c ≤ 'Z' then some (c.toNat - 65)
  else if 'a' ≤ c ∧ c ≤ 'z' then some (c.toNat - 97 + 26)
  else if '0' ≤ c ∧ c ≤ '9' then some (c.toNat - 48 + 52)
  else if c = '+' then some 62
  else if c = '/' then some 63
  else none

/-- Reassemble bytes from the 6-bit values of the data characters. -/
def b64BytesFromVals : List Nat → List Nat
  | a :: b :: c :: d :: rest =>
    (a * 4 + b / 16) :: ((b % 16) * 16 + c / 4) :: ((c % 4) * 64 + d) :: b64BytesFromVals rest
  | [a, b] => [a * 4 + b / 16]
  | [a, b, c] => [a * 4 + b / 16, (b % 16) * 16 + c / 4]
  | _ => []

/-- `base64.b64decode` on a char list; `none` models `binascii.Error`. -/
def b64decodePy (s : List Char) : Option (List Nat) :=
  let kept := s.filter (fun c => (b64CharVal c).isSome || c = '=')
  if kept.length % 4 ≠ 0 then none
  else
    let dataChars := kept.takeWhile (fun c => c ≠ '=')
    if dataChars.length % 4 = 1 then none
    else some (b64BytesFromVals (dataChars.filterMap b64CharVal))

/-- Everything after the first comma (`s.split(",", 1)[1]`, guarded by
`"," in s`). -/
def afterFirstComma : List Char → List Char
  | [] => []
  | c :: rest => if c = ',' then rest else afterFirstComma rest

/-- Sanitizing performed before each inline decode attempt
(message_processor.py lines 106-115, 137-143, 157-163): drop an optional
data-URI prefix, remove spaces, newlines and carriage returns, then pad
with `=` to a multiple of 4. -/
def sanitizeB64 (s : List Char) : List Char :=
  let s1 := if s.contains ',' then afterFirstComma s else s
  let s2 := s1.filter (fun c => c ≠ ' ' && c ≠ '\n' && c ≠ '\r')
  let pad := s2.length % 4
  s2 ++ List.replicate (if pad = 0 then 0 else 4 - pad) '='

/-- One inline base64 attempt: a string field is sanitized and decoded;
any failure (including a non-string field, whose string methods raise and
are caught) leaves the audio content unset. -/
def inlineB64Attempt : Json → Option (List Nat)
  | .str s => b64decodePy (sanitizeB64 s.data)
  | _ => none

/-! ## Audio byte acquisition (message_processor.py, `audio_to_text` lines 92-225)

The five sources are tried under `if audio_content is None` guards; network
fetches are oracle parameters (`some bytes` = HTTP 200 with that content,
`none` = non-200 status or a transport exception, both of which the source
catches). -/

/-- Source 1: inline `base64` field (lines 98-126). -/
def srcBase64 (kvs : List (String × Json)) : Option (List Nat) :=
  match lookupL kvs "base64" with
  | some v => inlineB64Attempt v
  | none => none

/-- The `ptt` container field, when it is a dict with a `data` entry
(line 129). -/
def pttDataVal (kvs : List (String × Json)) : Option Json :=
  match lookupL kvs "ptt" with
  | some (.obj p) => lookupL p "data"
  | _ => none

/-- Source 2: `ptt.data` (lines 129-148). -/
def srcPtt (kvs : List (String × Json)) : Option (List Nat) :=
  match pttDataVal kvs with
  | some v => inlineB64Attempt v
  | none => none

/-- Source 3: top-level `body` field (lines 151-168). -/
def srcBody (kvs : List (String × Json)) : Option (List Nat) :=
  match lookupL kvs "body" with
  | some v => inlineB64Attempt v
  | none => none

/-- Source 4: remote `url` fetch (lines 171-182); a non-string url makes
`client.get` raise, which the source catches. -/
def srcUrl (fetch : String → Option (List Nat)) (kvs : List (String × Json)) :
    Option (List Nat) :=
  match lookupL kvs "url" with
  | some (.str u) => fetch u
  | _ => none

/-- Download URL built from `directPath` (lines 187-193). -/
def mkDirectUrl (p : String) : String :=
  match p.data with
  | '/' :: _ => "https://mmg.whatsapp.net" ++ p
  | _ => "https://mmg.whatsapp.net/" ++ p

/-- Source 5 as an option, for a `directPath` that is absent or a string
(lines 185-218).  The oracle also receives the optional `mediaKey` used
for the bearer-style auth header. -/
def srcDirect (fetchD : String → Option Json → Option (List Nat))
    (kvs : List (String × Json)) : Option (List Nat) :=
  match lookupL kvs "directPath" with
  | some (.str p) => fetchD (mkDirectUrl p) (lookupL kvs "mediaKey")
  | _ => none

/-- Value of `audio_content` after the five source blocks (lines 98-218),
as a direct translation of the sequential `if audio_content is None and …`
structure.  A non-string `directPath` raises `AttributeError` at
`direct_path.startswith("/")`, which is outside the local `try` blocks;
a non-dict `audio_data` aborts the sources similarly.  Those exceptions
are caught only by the outermost handler of `audio_to_text`. -/
def acquireAudioContent (fetch : String → Option (List Nat))
    (fetchD : String → Option Json → Option (List Nat)) (audio : Json) :
    Except PyErr (Option (List Nat)) :=
  match audio with
  | .obj kvs =>
    let c1 := srcBase64 kvs
    let c2 := if c1.isNone then srcPtt kvs else c1
    let c3 := if c2.isNone then srcBody kvs else c2
    let c4 := if c3.isNone then srcUrl fetch kvs else c3
    if c4.isNone then
      match lookupL kvs "directPath" with
      | some (.str p) => .ok (fetchD (mkDirectUrl p) (lookupL kvs "mediaKey"))
      | some _ => .error .attributeError
      | none => .ok c4
    else .ok c4
  | _ => .error .typeError

/-- Result of the acquisition stage of `audio_to_text`: the final size
check `if audio_content is None or len(audio_content) < 100: return None`
(lines 221-225), with any escaped exception turned into the outermost
`return None` (lines 278-281). -/
def audio_to_text_acquired (fetch : String → Option (List Nat))
    (fetchD : String → Option Json → Option (List Nat)) (audio : Json) :
    Option (List Nat) :=
  match acquireAudioContent fetch fetchD audio with
  | .error _ => none
  | .ok none => none
  | .ok (some bs) => if bs.length < 100 then none else some bs

/-- First defined value in a priority list of optional results. -/
def firstSome : List (Option (List Nat)) → Option (List Nat)
  | [] => none
  | o :: rest => match o with
    | some b => some b
    | none => firstSome rest

/-- Whether `directPath`, if present, is a string (the only case in which
source 5 does not raise outside its `try`). -/
def dpStrOrAbsent (kvs : List (String × Json)) : Bool :=
  match lookupL kvs "directPath" with
  | some (.str _) => true
  | some _ => false
  | none => true

/-! ## PhoneNormalizer (`padronizar_telefone`, evolution_api.py lines 40-57) -/

/-- `numero_limpo.startswith('55')`. -/
def startsWith55 : List Char → Bool
  | c1 :: c2 :: _ => c1 == '5' && c2 == '5'
  | _ => false

/-- Step 1 (line 45): `re.sub(r'\D', '', numero)` — strip non-digits.
Python's `\D` is modelled as non-ASCII-digit. -/
def limpoOf (numero : List Char) : List Char := numero.filter Char.isDigit

/-- Step 2 (lines 48-49): prepend the country code 55 when missing. -/
def comPaisOf (l : List Char) : List Char :=
  if startsWith55 l then l else '5' :: '5' :: l

/-- Step 3 (lines 52-55): on exactly 12 digits insert the mobile `9`
after the area code (`numero_limpo[:2] + ddd + "9" + numero_final` with
`ddd = limpo[2:4]` and `numero_final = limpo[4:]`, i.e. the first four
characters, a `9`, then the rest). -/
def com9Of (l : List Char) : List Char :=
  if l.length = 12 then l.take 4 ++ '9' :: l.drop 4 else l

/-- `padronizar_telefone` over the character list of the input: the three
source steps in sequence. -/
def padronizarChars (numero : List Char) : List Char :=
  com9Of (comPaisOf (limpoOf numero))

/-- `padronizar_telefone` on strings. -/
def padronizar_telefone (numero : String) : String :=
  String.mk (padronizarChars numero.data)

/-! ## GatewayInstancePool (evolution_api.py lines 59-111) -/

/-- Pool state: the parsed `EVOLUTION_API_INSTANCES` credential list and
the class-level `_current_instance_index`. -/
structure EvoState (α : Type) where
  instances : List α
  currentIndex : Nat
  deriving Repr, DecidableEq

/-- `EvolutionAPIService.__init__` instance loading (lines 80-103):
`parsed` is the result of `json.loads(os.getenv("EVOLUTION_API_INSTANCES"))`,
`none` meaning a `JSONDecodeError`.  Decode failures and empty configs
produce an empty instance list with a logged warning; the constructor
raises nothing — no `ConfigurationError` exists anywhere in the repository,
so the result is always `.ok`. -/
def evolutionInit (parsed : Option (List α)) : Except String (EvoState α) :=
  .ok { instances := parsed.getD [], currentIndex := 0 }

/-- `_get_next_instance` (lines 105-111): return the credential at the
cursor, then advance the cursor modulo the list length.  On an empty list
`self.instances[0]` raises `IndexError` before the modulo is reached. -/
def get_next_instance (s : EvoState α) : Except PyErr (α × EvoState α) :=
  match s.instances[s.currentIndex]? with
  | none => .error .indexError
  | some inst =>
    .ok (inst, { s with currentIndex := (s.currentIndex + 1) % s.instances.length })

/-- Results of `n` consecutive `_get_next_instance` calls; a raised
`IndexError` leaves the state unchanged. -/
def draws (s : EvoState α) : Nat → List (Except PyErr α)
  | 0 => []
  | n + 1 =>
    match get_next_instance s with
    | .ok (inst, s2) => .ok inst :: draws s2 n
    | .error e => .error e :: draws s n

/-- Pool state after `n` consecutive `_get_next_instance` calls. -/
def afterDraws (s : EvoState α) : Nat → EvoState α
  | 0 => s
  | n + 1 =>
    match get_next_instance s with
    | .ok (_, s2) => afterDraws s2 n
    | .error _ => afterDraws s n

/-! ## ResilientHttpClient (`_make_request`, evolution_api.py lines 119-173)

Each loop iteration performs one `session.request`; its outcome is
supplied by an oracle list whose length is `self.max_retries`.  A
`response` carries the status, `response.text` (empty iff
`response.content` is empty) and the result of `response.json()` —
`none` when the body does not parse, in which case `.json()` raises and
the `except Exception` branch treats the attempt as a retryable failure. -/

/-- Outcome of one `session.request` call. -/
inductive AttemptResult where
  | response (status : Nat) (text : String) (jsonBody : Option Json)
  | timeout
  | exc (msg : String)

/-- The dict returned by `_make_request`. -/
inductive MRResult where
  | success (data : Json)
  | error (message : String)
  deriving Repr

/-- Message of the `json.JSONDecodeError` raised by `response.json()` on a
non-JSON body (`str(e)` as captured by `except Exception as e`). -/
def jsonDecodeFailMsg : String := "Expecting value: line 1 column 1 (char 0)"

/-- One attempt body (lines 124-137 and the except clauses): `.ok data`
is the immediate success return, `.error msg` a failure carrying the
message used if this was the last attempt. -/
def classifyAttempt : AttemptResult → Except String Json
  | .response st text jb =>
    if st == 200 || hasPending text then
      if text = "" then .ok (Json.obj [])
      else
        match jb with
        | some j => .ok j
        | none => .error jsonDecodeFailMsg
    else .error ("Erro na requisição: " ++ text)
  | .timeout => .error "Timeout na requisição"
  | .exc m => .error m

/-- The retry loop from attempt number `attemptIdx` on: sleeps of
`retry_delay * (attempt + 1)` are recorded before every non-final retried
attempt; the final failure returns the error dict; an exhausted `range`
(only possible when `max_retries` is 0) returns the fallback error. -/
def mrLoop (retryDelay : Nat) (attemptIdx : Nat) :
    List AttemptResult → MRResult × List Nat
  | [] => (.error "Todas as tentativas falharam", [])
  | r :: rest =>
    match classifyAttempt r with
    | .ok data => (.success data, [])
    | .error msg =>
      match rest with
      | [] => (.error msg, [])
      | _ :: _ =>
        let tail := mrLoop retryDelay (attemptIdx + 1) rest
        (tail.1, retryDelay * (attemptIdx + 1) :: tail.2)

/-- `_make_request`: result dict and the list of back-off sleep durations,
given `self.retry_delay` and the per-attempt oracle (whose length is
`self.max_retries`). -/
def make_request (retryDelay : Nat) (attempts : List AttemptResult) :
    MRResult × List Nat :=
  mrLoop retryDelay 0 attempts

/-! ## Webhook handler (`receive_message`, main.py lines 300-561)

The handler is embedded up to the point where the extracted
(sender, text) pair is handed to the business logic (line 556): every
claim about it concerns branch selection and extraction, which involve no
external collaborator.  The whole body runs inside one `try`; any escaped
exception becomes the HTTP 500 response of lines 762-764. -/

/-- Outcome of one `receive_message` invocation, up to the hand-off. -/
inductive WebhookOutcome where
  | earlyError (msg : String)
  | ignored
  | proceed (sender text : Json)
  | serverError
  deriving Repr

/-- The attributes `class MessageProcessor` defines
(message_processor.py): nothing named `audio_to_text_n8n` is among
them. -/
def messageProcessorMethods : List String :=
  ["__init__", "convert_audio", "audio_to_text"]

/-- Attribute lookup plus call on the module-level `message_processor`
instance.  A name the class does not define raises `AttributeError`
before any call happens; for a defined name the call itself is not
modelled (the embedded handler only ever calls the undefined
`audio_to_text_n8n`, so the `.ok` branch is unreachable there and its
value is a placeholder). -/
def callUndefinedProcessorMethod (name : String) (_arg : Json) : Except PyErr Json :=
  if messageProcessorMethods.contains name then .ok Json.null
  else .error .attributeError

/-- Non-audio text extraction of the list-format branch
(main.py lines 341-362). -/
def extractTextFromMessageObj (mo : Json) : Except PyErr Json := do
  if (← pyIn "conversation" mo) then pyGetItem mo "conversation"
  else if (← pyIn "extendedTextMessage" mo) then do
    let etm ← pyGetItem mo "extendedTextMessage"
    pyGetD etm "text" (Json.str "")
  else if (← pyIn "buttonsResponseMessage" mo) then do
    let b ← pyGetItem mo "buttonsResponseMessage"
    pyGetD b "selectedButtonId" (Json.str "")
  else if (← pyIn "templateButtonReplyMessage" mo) then do
    let b ← pyGetItem mo "templateButtonReplyMessage"
    pyGetD b "selectedId" (Json.str "")
  else if (← pyIn "listResponseMessage" mo) then do
    let b ← pyGetItem mo "listResponseMessage"
    pyGetD b "title" (Json.str "")
  else pure (Json.str "")

/-- Text extraction used by the alternative, data and recursive branches
(main.py lines 392-395, 441-444, 529-534): only `conversation` and
`extendedTextMessage` are recognised. -/
def extractTextConvEtm (mo : Json) : Except PyErr Json := do
  if (← pyIn "conversation" mo) then pyGetItem mo "conversation"
  else if (← pyIn "extendedTextMessage" mo) then do
    let etm ← pyGetItem mo "extendedTextMessage"
    pyGetD etm "text" (Json.str "")
  else pure (Json.str "")

/-- Fallback scan of the list-format branch (main.py lines 367-379): the
first field of `message_obj` holding a dict with a `text` key supplies the
text; a still-empty text becomes the fixed placeholder.  Called only under
`if not text and message_obj`; `.items()` on a non-dict raises. -/
def fallbackScan (mo : Json) (text : Json) : Except PyErr Json :=
  match mo with
  | .obj kvs =>
    let t2 :=
      match kvs.find? (fun p => match p.2 with | .obj sub => hasKeyL sub "text" | _ => false) with
      | some (_, .obj sub) => (lookupL sub "text").getD Json.null
      | _ => text
    .ok (if truthy t2 then t2 else Json.str "[Mensagem sem texto]")
  | _ => .error .attributeError

/-- Common tail of every branch (main.py lines 544-561): reject a falsy
sender or text, ignore the bot itself, otherwise hand (sender, text) to
the business logic. -/
def finishChecks (sender text : Json) : WebhookOutcome :=
  if !truthy sender then .earlyError "Dados incompletos: remetente ausente"
  else if !truthy text then .earlyError "Dados incompletos: texto ausente"
  else if (match sender with | .str s => s == "Julia Atendimento" | _ => false) then .ignored
  else .proceed sender text

/-- List-format branch (main.py lines 311-379) applied to the first
message record. -/
def listFormatBranch (m0 : Json) : Except PyErr WebhookOutcome := do
  let keyObj ← pyGetD m0 "key" (Json.obj [])
  let sender ← pyGetD keyObj "remoteJid" (Json.str "")
  let mo ← pyGetD m0 "message" (Json.obj [])
  let inAudio ← pyIn "audioMessage" mo
  let text ←
    if inAudio then do
      let audioData ← pyGetItem mo "audioMessage"
      let inB64 ← pyIn "base64" mo
      let audioData2 ←
        if inB64 then do
          let b ← pyGetItem mo "base64"
          pySetKey audioData "base64" b
        else pure audioData
      let t ← callUndefinedProcessorMethod "audio_to_text_n8n" audioData2
      pure (if truthy t then t else Json.str "Desculpe, não consegui entender o áudio.")
    else extractTextFromMessageObj mo
  let text2 ←
    if !truthy text && truthy mo then fallbackScan mo text
    else pure text
  pure (finishChecks sender text2)

/-- Audio `try` body shared by the data-format and recursive branches
(main.py lines 418-431 and 506-519): promote a `base64` found on the
containing record or on `message_obj` into the audio dict, then call the
(undefined) `audio_to_text_n8n`. -/
def tryAudioDataFormat (md mo : Json) : Except PyErr Json := do
  let audioData ← pyGetItem mo "audioMessage"
  let inMd ← pyIn "base64" md
  let audioData2 ←
    if inMd then do
      let b ← pyGetItem md "base64"
      pySetKey audioData "base64" b
    else do
      let inMo ← pyIn "base64" mo
      if inMo then do
        let b ← pyGetItem mo "base64"
        pySetKey audioData "base64" b
      else pure audioData
  let t ← callUndefinedProcessorMethod "audio_to_text_n8n" audioData2
  pure (if truthy t then t else Json.str "Desculpe, não consegui entender o áudio.")

/-- The audio `try`/`except` of the data-format and recursive branches
(main.py lines 418-440, 506-528): any exception inside the `try` yields
the audio-error phrase. -/
def audioTextDataFormat (md mo : Json) : Json :=
  match tryAudioDataFormat md mo with
  | .ok t => t
  | .error _ => Json.str "Desculpe, houve um erro ao processar o áudio."

/-- Alternative direct-webhook branch (main.py lines 385-400). -/
def keyFormatBranch (data : Json) : Except PyErr WebhookOutcome := do
  let sender ← pyGetItem (← pyGetItem data "key") "remoteJid"
  let mo ← pyGetD data "message" (Json.obj [])
  let text ← extractTextConvEtm mo
  pure (finishChecks sender text)

/-- Data-format branch (main.py lines 403-453), applied to the
`data["data"]` dict.  The `logger.debug` f-string of line 416 indexes
`message_obj["audioMessage"]` outside the local `try`. -/
def dataFormatBranch (md : Json) : Except PyErr WebhookOutcome := do
  let cond ←
    if (← pyIn "key" md) then pyIn "remoteJid" (← pyGetItem md "key")
    else pure false
  if cond then do
    let sender ← pyGetItem (← pyGetItem md "key") "remoteJid"
    let mo ← pyGetD md "message" (Json.obj [])
    let inAudio ← pyIn "audioMessage" mo
    let text ←
      if inAudio then do
        let _ ← pyGetItem mo "audioMessage"
        pure (audioTextDataFormat md mo)
      else extractTextConvEtm mo
    pure (finishChecks sender text)
  else pure (.earlyError "Dados em formato inválido")

mutual

/-- Bounded recursive search `find_message_data` (main.py lines 459-486):
depth-first, pre-order, depth capped at 5; the first dict with a `key`
field whose value contains `remoteJid` and a sibling `message` field is
returned. -/
def findMD (j : Json) (depth : Nat) : Except PyErr (Option Json) :=
  if depth > 5 then .ok none
  else
    match j with
    | .obj kvs => do
      let cond ←
        if hasKeyL kvs "key" then do
          let b ← pyIn "remoteJid" ((lookupL kvs "key").getD (Json.obj []))
          pure (b && hasKeyL kvs "message")
        else pure false
      if cond then pure (some (Json.obj kvs))
      else findMDFields kvs depth
    | .arr xs => findMDItems xs depth
    | _ => pure none

def findMDFields (kvs : List (String × Json)) (depth : Nat) :
    Except PyErr (Option Json) :=
  match kvs with
  | [] => pure none
  | (_, v) :: rest => do
    let r ← findMD v (depth + 1)
    match r with
    | some x => pure (some x)
    | none => findMDFields rest depth

def findMDItems (xs : List Json) (depth : Nat) : Except PyErr (Option Json) :=
  match xs with
  | [] => pure none
  | v :: rest => do
    let r ← findMD v (depth + 1)
    match r with
    | some x => pure (some x)
    | none => findMDItems rest depth

end

/-- Recursive-search branch once a record is found
(main.py lines 492-539); line 504 indexes `message_obj["audioMessage"]`
outside the local `try`. -/
def recursiveFoundBranch (md : Json) : Except PyErr WebhookOutcome := do
  let sender ← pyGetItem (← pyGetItem md "key") "remoteJid"
  let mo ← pyGetD md "message" (Json.obj [])
  let inAudio ← pyIn "audioMessage" mo
  let text ←
    if inAudio then do
      let _ ← pyGetItem mo "audioMessage"
      pure (audioTextDataFormat md mo)
    else extractTextConvEtm mo
  pure (finishChecks sender text)

/-- `receive_message` body (main.py lines 302-561): branch selection in
source order.  A top-level `message` field that is not a non-empty list
returns the invalid-format error without trying the other shapes
(lines 380-382). -/
def receiveMessageE (data : Json) : Except PyErr WebhookOutcome := do
  if (← pyIn "message" data) then do
    let messages ← pyGetItem data "message"
    match messages with
    | .arr (m0 :: _) => listFormatBranch m0
    | _ => pure (.earlyError "Formato de mensagem inválido")
  else if (← do
      if (← pyIn "key" data) then pyIn "remoteJid" (← pyGetItem data "key")
      else pure false) then
    keyFormatBranch data
  else if (← do
      if (← pyIn "data" data) then do
        let dv ← pyGetItem data "data"
        pure (match dv with | .obj _ => true | _ => false)
      else pure false) then
    dataFormatBranch (← pyGetItem data "data")
  else do
    let r ← findMD data 0
    match r with
    | some md => recursiveFoundBranch md
    | none => pure (.earlyError "Formato de dados não reconhecido")

/-- `receive_message` with the outer `try`/`except` of main.py
lines 302 and 762-764: an escaped exception becomes HTTP 500. -/
def receive_message (data : Json) : WebhookOutcome :=
  match receiveMessageE data with
  | .ok o => o
  | .error _ => .serverError

/-! ## Concrete documents used by the claims -/

/-- The C1 document:
`key.remoteJid = "55999"`, `message.extendedTextMessage.text = "ola"`. -/
def c1payload : Json :=
  .obj [("key", .obj [("remoteJid", .str "55999")]),
        ("message", .obj [("extendedTextMessage", .obj [("text", .str "ola")])])]

/-- An inline base64 payload of 68 characters that decodes to 49 bytes
(64 `A` data characters then `QQ==`), below the 100-byte minimum. -/
def shortB64 : String :=
  "AAAAAAAAAAAAAAAAAAAAAAAAAAAAAAAAAAAAAAAAAAAAAAAAAAAAAAAAAAAAAAAAQQ=="

/-- A list-format webhook document carrying an audio message whose inline
base64 decodes to fewer than 100 bytes. -/
def c8payload : Json :=
  .obj [("message",
    .arr [.obj [("key", .obj [("remoteJid", .str "556299990000")]),
                ("message", .obj [("audioMessage",
                   .obj [("base64", .str shortB64)])])]])]

/-- Audio dict with a short inline base64 and a live download URL. -/
def c3audio : Json :=
  .obj [("base64", .str shortB64),
        ("url", .str "https://example.com/a.ogg")]

/-- URL oracle for the C3 counterexample: every fetch returns 200 with a
200-byte body. -/
def c3fetch : String → Option (List Nat) := fun _ => some (List.replicate 200 0)

/-! ## Claim theorems -/

/-- C1: for the document `{"key":{"remoteJid":"55999"},"message":
{"extendedTextMessage":{"text":"ola"}}}` the claim expects resolution via
the top-level routing-key shape with sender "55999" and text "ola".  The
code instead takes the `"message" in data` branch first, finds that the
field is not a non-empty list, and returns the invalid-format error — the
routing-key branch (which would indeed extract exactly that pair, second
conjunct) is unreachable for any document with a top-level `message`
field. -/
theorem C1_message_field_short_circuits :
    receive_message c1payload = .earlyError "Formato de mensagem inválido"
    ∧ keyFormatBranch c1payload
        = .ok (.proceed (Json.str "55999") (Json.str "ola")) :=
  ⟨rfl, rfl⟩

/-- C2 counterexample: constructing the service with an empty credential
list does not fail — `__init__` only logs a warning and returns a state
with an empty pool. -/
theorem C2_counterexample_init_succeeds :
    evolutionInit (some ([] : List String))
      = .ok { instances := [], currentIndex := 0 } := rfl

/-- C2 (amended): construction with an empty credential list succeeds;
the failure surfaces only later, when `_get_next_instance` raises
`IndexError` drawing from the empty list. -/
theorem C2_empty_pool_fails_at_draw :
    evolutionInit (some ([] : List String))
      = .ok { instances := [], currentIndex := 0 }
    ∧ get_next_instance ({ instances := [], currentIndex := 0 } : EvoState String)
        = .error .indexError :=
  ⟨rfl, rfl⟩

/-- C8: on a list-format audio document whose inline base64 decodes to
49 bytes the handler answers HTTP 500 — the call to the undefined
`audio_to_text_n8n` raises `AttributeError` before acquisition can run —
while the acquisition stage of the defined `audio_to_text` method would
have failed without raising (second conjunct), which is what the claimed
fallback-phrase behavior requires. -/
theorem C8_audio_fallback_never_reached :
    receive_message c8payload = .serverError
    ∧ ∀ (fetch : String → Option (List Nat))
        (fetchD : String → Option Json → Option (List Nat)),
        audio_to_text_acquired fetch fetchD
          (Json.obj [("base64", Json.str shortB64)]) = none :=
  ⟨rfl, fun _ _ => rfl⟩

/-- C5 counterexample: a 400 response whose body is the non-JSON text
"pending" satisfies the pending check but `response.json()` raises, so
after three attempts (two back-off sleeps) the call returns an error, not
Success. -/
theorem C5_counterexample_nonjson_pending_fails :
    make_request 1 [.response 400 "pending" none, .response 400 "pending" none,
                    .response 400 "pending" none]
      = (.error jsonDecodeFailMsg, [1, 2]) := rfl

/-- C3 counterexample: the inline base64 decodes to 49 bytes (< 100), the
url oracle would deliver 200 bytes, yet acquisition fails — the later
sources are not tried when an earlier source yields any bytes at all. -/
theorem C3_counterexample_short_inline_stops_chain :
    audio_to_text_acquired c3fetch (fun _ _ => none) c3audio = none
    ∧ c3fetch "https://example.com/a.ogg" = some (List.replicate 200 0)
    ∧ (List.replicate 200 0).length = 200
    ∧ (inlineB64Attempt (Json.str shortB64)).map List.length = some 49 :=
  ⟨rfl, rfl, by simp, rfl⟩

/-- C6 counterexample: a 503 whose body is the JSON string "PENDING"
satisfies the pending check on the very first attempt, so the call
succeeds with zero back-off sleeps instead of the claimed two. -/
theorem C6_counterexample_pending_body_skips_backoff :
    make_request 2 [.response 503 "\"PENDING\"" (some (Json.str "PENDING")),
                    .response 503 "oops" none, .response 200 "" none]
      = (.success (Json.str "PENDING"), [])
    ∧ (make_request 2 [.response 503 "\"PENDING\"" (some (Json.str "PENDING")),
                       .response 503 "oops" none, .response 200 "" none]).2
        ≠ [2 * 1, 2 * 2] :=
  ⟨rfl, by decide⟩

/-! ## C4: idempotence of the phone normalizer -/

theorem startsWith55_iff (l : List Char) :
    startsWith55 l = true ↔ ∃ t, l = '5' :: '5' :: t := by
  cases l with
  | nil => simp [startsWith55]
  | cons a t =>
    cases t with
    | nil => simp [startsWith55]
    | cons b t2 =>
      simp only [startsWith55, Bool.and_eq_true, beq_iff_eq]
      constructor
      · rintro ⟨rfl, rfl⟩
        exact ⟨t2, rfl⟩
      · rintro ⟨t, ht⟩
        injection ht with h1 h2
        injection h2 with h3 h4
        exact ⟨h1, h3⟩

theorem all_digits_limpoOf (numero : List Char) :
    ∀ c ∈ limpoOf numero, c.isDigit = true :=
  fun _ hc => (List.mem_filter.mp hc).2

theorem all_digits_comPaisOf (l : List Char) (h : ∀ c ∈ l, c.isDigit = true) :
    ∀ c ∈ comPaisOf l, c.isDigit = true := by
  intro c hc
  unfold comPaisOf at hc
  split at hc
  · exact h c hc
  · rcases List.mem_cons.mp hc with rfl | hc2
    · decide
    · rcases List.mem_cons.mp hc2 with rfl | hc3
      · decide
      · exact h c hc3

theorem all_digits_com9Of (l : List Char) (h : ∀ c ∈ l, c.isDigit = true) :
    ∀ c ∈ com9Of l, c.isDigit = true := by
  intro c hc
  unfold com9Of at hc
  split at hc
  · rcases List.mem_append.mp hc with h1 | h1
    · exact h c (List.take_subset _ _ h1)
    · rcases List.mem_cons.mp h1 with rfl | h2
      · decide
      · exact h c (List.drop_subset _ _ h2)
  · exact h c hc

theorem startsWith55_comPaisOf (l : List Char) :
    startsWith55 (comPaisOf l) = true := by
  unfold comPaisOf
  split
  next h => exact h
  next h => rfl

theorem startsWith55_com9Of (l : List Char) (h : startsWith55 l = true) :
    startsWith55 (com9Of l) = true := by
  obtain ⟨t, rfl⟩ := (startsWith55_iff l).mp h
  unfold com9Of
  split
  · rfl
  · exact h

theorem com9Of_length_ne_12 (l : List Char) : (com9Of l).length ≠ 12 := by
  unfold com9Of
  split
  next h =>
    simp only [List.length_append, List.length_take, List.length_cons,
      List.length_drop, h]
    omega
  next h => exact h

theorem padronizarChars_idem (numero : List Char) :
    padronizarChars (padronizarChars numero) = padronizarChars numero := by
  have hdig : ∀ c ∈ padronizarChars numero, c.isDigit = true :=
    all_digits_com9Of _ (all_digits_comPaisOf _ (all_digits_limpoOf numero))
  have h55 : startsWith55 (padronizarChars numero) = true :=
    startsWith55_com9Of _ (startsWith55_comPaisOf _)
  have h12 : (padronizarChars numero).length ≠ 12 := com9Of_length_ne_12 _
  have hlim : limpoOf (padronizarChars numero) = padronizarChars numero :=
    List.filter_eq_self.mpr hdig
  show com9Of (comPaisOf (limpoOf (padronizarChars numero))) = padronizarChars numero
  rw [hlim]
  unfold comPaisOf
  rw [if_pos h55]
  unfold com9Of
  rw [if_neg h12]

/-- C4: `padronizar_telefone` is idempotent — its output is all digits,
starts with 55 and never has length 12, so a second pass changes
nothing. -/
theorem C4_padronizar_idempotent (s : String) :
    padronizar_telefone (padronizar_telefone s) = padronizar_telefone s := by
  unfold padronizar_telefone
  show String.mk (padronizarChars (String.mk (padronizarChars s.data)).data)
      = String.mk (padronizarChars s.data)
  rw [show (String.mk (padronizarChars s.data)).data = padronizarChars s.data from rfl,
    padronizarChars_idem]

/-! ## C7: round-robin of the instance pool -/

theorem get_next_instance_ok (l : List α) (c : Nat) (hc : c < l.length) :
    get_next_instance (⟨l, c⟩ : EvoState α)
      = .ok (l[c], ⟨l, (c + 1) % l.length⟩) := by
  unfold get_next_instance
  rw [List.getElem?_eq_getElem hc]

theorem draws_add (s : EvoState α) (m n : Nat) :
    draws s (m + n) = draws s m ++ draws (afterDraws s m) n := by
  induction m generalizing s with
  | zero => simp [draws, afterDraws]
  | succ k ih =>
    rw [Nat.succ_add]
    cases hg : get_next_instance s with
    | ok p =>
      obtain ⟨inst, s2⟩ := p
      simp only [draws, afterDraws, hg, ih, List.cons_append]
    | error e =>
      simp only [draws, afterDraws, hg, ih, List.cons_append]

theorem afterDraws_add (s : EvoState α) (m n : Nat) :
    afterDraws s (m + n) = afterDraws (afterDraws s m) n := by
  induction m generalizing s with
  | zero => simp [afterDraws]
  | succ k ih =>
    rw [Nat.succ_add]
    cases hg : get_next_instance s with
    | ok p =>
      obtain ⟨inst, s2⟩ := p
      simp only [afterDraws, hg, ih]
    | error e => simp only [afterDraws, hg, ih]

theorem draws_in_range (l : List α) :
    ∀ (n c : Nat), c + n ≤ l.length →
      draws (⟨l, c⟩ : EvoState α) n = ((l.drop c).take n).map Except.ok := by
  intro n
  induction n with
  | zero => intro c h; simp [draws]
  | succ k ih =>
    intro c h
    have hc : c < l.length := by omega
    rw [List.drop_eq_getElem_cons hc, List.take_succ_cons]
    simp only [draws, get_next_instance_ok l c hc, List.map_cons]
    congr 1
    rcases Nat.lt_or_ge (c + 1) l.length with hlt | hge
    · rw [Nat.mod_eq_of_lt hlt]
      exact ih (c + 1) (by omega)
    · have hk : k = 0 := by omega
      subst hk
      simp [draws]

theorem afterDraws_in_range (l : List α) :
    ∀ (n c : Nat), 0 < n → c + n ≤ l.length →
      afterDraws (⟨l, c⟩ : EvoState α) n = ⟨l, (c + n) % l.length⟩ := by
  intro n
  induction n with
  | zero => intro c h0 h; exact absurd h0 (Nat.lt_irrefl 0)
  | succ k ih =>
    intro c _ h
    have hc : c < l.length := by omega
    simp only [afterDraws, get_next_instance_ok l c hc]
    cases k with
    | zero => simp [afterDraws]
    | succ k2 =>
      have hlt : c + 1 < l.length := by omega
      rw [Nat.mod_eq_of_lt hlt, ih (c + 1) (by omega) (by omega)]
      have harith : c + 1 + (k2 + 1) = c + (k2 + 1 + 1) := by omega
      rw [harith]

/-- C7: from any in-range cursor `c`, `N = l.length` consecutive
`_get_next_instance` calls return exactly the rotation of the pool by `c`
(a permutation of the pool, so each credential exactly once), and the
next `N` calls repeat the same sequence. -/
theorem C7_round_robin (l : List α) (c : Nat) (hc : c < l.length) :
    draws (⟨l, c⟩ : EvoState α) l.length = (l.rotate c).map Except.ok
    ∧ (l.rotate c).Perm l
    ∧ draws (⟨l, c⟩ : EvoState α) (2 * l.length)
        = ((l.rotate c) ++ (l.rotate c)).map Except.ok := by
  have hsplit : l.length = (l.length - c) + c := by omega
  have hdpos : 0 < l.length - c := by omega
  have hzero : (c + (l.length - c)) % l.length = 0 := by
    have hx : c + (l.length - c) = l.length := by omega
    rw [hx, Nat.mod_self]
  have h1 : draws (⟨l, c⟩ : EvoState α) l.length = (l.rotate c).map Except.ok := by
    conv_lhs => rw [hsplit]
    rw [draws_add, draws_in_range l (l.length - c) c (by omega),
      afterDraws_in_range l (l.length - c) c hdpos (by omega), hzero,
      draws_in_range l c 0 (by omega)]
    have hdt : (l.drop c).take (l.length - c) = l.drop c := by
      have hld := List.length_drop c l
      rw [← hld, List.take_length]
    rw [hdt, List.drop_zero, List.rotate_eq_drop_append_take (Nat.le_of_lt hc),
      List.map_append]
  have hafter : afterDraws (⟨l, c⟩ : EvoState α) l.length = ⟨l, c⟩ := by
    conv_lhs => rw [hsplit]
    rw [afterDraws_add, afterDraws_in_range l (l.length - c) c hdpos (by omega), hzero]
    rcases Nat.eq_zero_or_pos c with rfl | hcpos
    · rfl
    · rw [afterDraws_in_range l c 0 hcpos (by omega)]
      simp [Nat.mod_eq_of_lt hc]
  refine ⟨h1, List.rotate_perm l c, ?_⟩
  rw [two_mul, draws_add, hafter, h1, List.map_append]

/-- C7 witness: pool of three credentials, starting cursor 1. -/
theorem C7_round_robin_witness :
    1 < (["a", "b", "c"] : List String).length
    ∧ (draws (⟨["a", "b", "c"], 1⟩ : EvoState String)
          (["a", "b", "c"] : List String).length
         = ((["a", "b", "c"] : List String).rotate 1).map Except.ok
       ∧ ((["a", "b", "c"] : List String).rotate 1).Perm ["a", "b", "c"]
       ∧ draws (⟨["a", "b", "c"], 1⟩ : EvoState String)
           (2 * (["a", "b", "c"] : List String).length)
         = (((["a", "b", "c"] : List String).rotate 1)
             ++ ((["a", "b", "c"] : List String).rotate 1)).map Except.ok) :=
  ⟨by decide, C7_round_robin ["a", "b", "c"] 1 (by decide)⟩

/-! ## C5, C6, C10: the retry loop -/

/-- C5 (amended): a response whose body case-insensitively contains
"pending" and parses as JSON is an immediate Success with no back-off
sleeps, whatever the status (400 included).  A pending body that fails
JSON parsing is instead a retryable failure: see C10 and the C5
counterexample. -/
theorem C5_pending_json_body_success (retryDelay st : Nat) (text : String)
    (j : Json) (rest : List AttemptResult) (hp : hasPending text = true) :
    make_request retryDelay (.response st text (some j) :: rest)
      = (.success j, []) := by
  have htext : text ≠ "" := by
    intro he
    rw [he] at hp
    exact absurd hp (by decide)
  unfold make_request mrLoop
  simp [classifyAttempt, hp, htext]

/-- C5 witness: status 400, body the JSON string "pending". -/
theorem C5_pending_json_body_success_witness :
    hasPending "\"pending\"" = true
    ∧ make_request 1 [.response 400 "\"pending\"" (some (Json.str "pending"))]
        = (.success (Json.str "pending"), []) :=
  ⟨rfl, C5_pending_json_body_success 1 400 "\"pending\"" (Json.str "pending") [] rfl⟩

/-- C6 (amended): with 503 bodies that do not contain "pending" on
attempts 1-2 and a 200 whose body is empty or valid JSON on attempt 3,
the call succeeds after exactly the two back-off sleeps
`retry_delay * 1` and `retry_delay * 2`. -/
theorem C6_backoff_schedule (d : Nat) (t1 t2 t3 : String) (j1 j2 j3 : Option Json)
    (h1 : hasPending t1 = false) (h2 : hasPending t2 = false)
    (h3 : t3 = "" ∨ j3.isSome = true) :
    ∃ data, make_request d [.response 503 t1 j1, .response 503 t2 j2,
        .response 200 t3 j3] = (.success data, [d * 1, d * 2]) := by
  by_cases ht : t3 = ""
  · exact ⟨Json.obj [], by simp [make_request, mrLoop, classifyAttempt, h1, h2, ht]⟩
  · rcases h3 with h | h
    · contradiction
    · obtain ⟨j, hj⟩ := Option.isSome_iff_exists.mp h
      exact ⟨j, by simp [make_request, mrLoop, classifyAttempt, h1, h2, ht, hj]⟩

/-- C6 witness: plain 503 bodies, empty 200 body, retry delay 2. -/
theorem C6_backoff_schedule_witness :
    hasPending "Service Unavailable" = false
    ∧ (("" : String) = "" ∨ (none : Option Json).isSome = true)
    ∧ ∃ data, make_request 2 [.response 503 "Service Unavailable" none,
        .response 503 "Service Unavailable" none, .response 200 "" none]
        = (.success data, [2 * 1, 2 * 2]) :=
  ⟨rfl, Or.inl rfl,
    C6_backoff_schedule 2 "Service Unavailable" "Service Unavailable" "" none none none
      rfl rfl (Or.inl rfl)⟩

theorem mrLoop_last_err (d i : Nat) (r : AttemptResult) (msg : String)
    (h : classifyAttempt r = .error msg) :
    mrLoop d i [r] = (.error msg, []) := by
  simp only [mrLoop, h]

theorem mrLoop_cons_err (d i : Nat) (r x : AttemptResult) (rest : List AttemptResult)
    (msg : String) (h : classifyAttempt r = .error msg) :
    mrLoop d i (r :: x :: rest)
      = ((mrLoop d (i + 1) (x :: rest)).1,
         d * (i + 1) :: (mrLoop d (i + 1) (x :: rest)).2) := by
  conv_lhs => rw [mrLoop]
  rw [h]

theorem mrLoop_parse_fail (d st : Nat) (text : String)
    (hcond : (st == 200 || hasPending text) = true) (htext : text ≠ "") :
    ∀ (n i : Nat), mrLoop d i (List.replicate (n + 1) (.response st text none))
      = (.error jsonDecodeFailMsg, (List.range' (i + 1) n).map (fun k => d * k)) := by
  have hcl : classifyAttempt (.response st text none) = .error jsonDecodeFailMsg := by
    simp [classifyAttempt, hcond, htext]
  intro n
  induction n with
  | zero =>
    intro i
    rw [List.replicate_succ, List.replicate_zero, mrLoop_last_err d i _ _ hcl]
    simp [List.range']
  | succ m ih =>
    intro i
    rw [List.replicate_succ, List.replicate_succ,
      mrLoop_cons_err d i _ _ _ _ hcl, ← List.replicate_succ, ih (i + 1),
      List.range'_succ, List.map_cons]

/-- C10: a response that passes the success check (status 200 or a
pending body) but whose body is non-empty and not valid JSON makes
`response.json()` raise; the attempt is retried with the usual back-off
sleeps and, after the last attempt, the call returns an Error outcome. -/
theorem C10_parse_failure_is_retried (d st : Nat) (text : String) (n : Nat)
    (hcond : (st == 200 || hasPending text) = true) (htext : text ≠ "") :
    make_request d (List.replicate (n + 1) (.response st text none))
      = (.error jsonDecodeFailMsg, (List.range' 1 n).map (fun k => d * k)) :=
  mrLoop_parse_fail d st text hcond htext n 0

/-- C10 witness: status 400 with the non-JSON pending body, three
attempts, delay 3: error after sleeps 3 and 6. -/
theorem C10_parse_failure_is_retried_witness :
    ((400 == 200) || hasPending "request pending") = true
    ∧ ("request pending" : String) ≠ ""
    ∧ make_request 3 (List.replicate 3 (.response 400 "request pending" none))
        = (.error jsonDecodeFailMsg, (List.range' 1 2).map (fun k => 3 * k)) :=
  ⟨rfl, by decide, C10_parse_failure_is_retried 3 400 "request pending" 2 rfl (by decide)⟩

/-! ## C3: acquisition order -/

/-- C3 (amended): acquisition tries the five sources in the fixed order
inline base64, ptt container, body, url, directPath, but it stops at the
first source that yields bytes at all (a decode or fetch success of any
length); the 100-byte minimum is applied once at the very end, so an
earlier source yielding fewer than 100 bytes still ends the chain and the
acquisition fails without consulting the later sources. -/
theorem C3_first_yielding_source_wins (fetch : String → Option (List Nat))
    (fetchD : String → Option Json → Option (List Nat))
    (kvs : List (String × Json)) :
    audio_to_text_acquired fetch fetchD (Json.obj kvs)
      = (firstSome [srcBase64 kvs, srcPtt kvs, srcBody kvs, srcUrl fetch kvs,
          srcDirect fetchD kvs]).bind
          (fun bs => if bs.length < 100 then none else some bs) := by
  unfold audio_to_text_acquired acquireAudioContent srcDirect
  cases h1 : srcBase64 kvs with
  | some b => simp [firstSome, h1]
  | none =>
  cases h2 : srcPtt kvs with
  | some b => simp [firstSome, h1, h2]
  | none =>
  cases h3 : srcBody kvs with
  | some b => simp [firstSome, h1, h2, h3]
  | none =>
  cases h4 : srcUrl fetch kvs with
  | some b => simp [firstSome, h1, h2, h3, h4]
  | none =>
  cases h5 : lookupL kvs "directPath" with
  | none => simp [firstSome, h1, h2, h3, h4, h5]
  | some v =>
    cases v <;> try simp [firstSome, h1, h2, h3, h4, h5]
    case str p =>
      cases h6 : fetchD (mkDirectUrl p) (lookupL kvs "mediaKey") <;>
        simp [firstSome, h1, h2, h3, h4, h5, h6]

/-! ## C9: the undefined transcription method -/

/-- C9: `MessageProcessor` defines no `audio_to_text_n8n`, so on every
list-format payload whose message object contains an `audioMessage` the
handler raises `AttributeError`; in this branch no local `try` protects
the call, the exception escapes to the outer handler and the request ends
in HTTP 500 — never in a transcript. -/
theorem C9_audio_path_attribute_error (data m0 : Json)
    (kvs mkvs mo : List (String × Json)) (rest : List Json)
    (h1 : data = Json.obj kvs)
    (h2 : lookupL kvs "message" = some (Json.arr (m0 :: rest)))
    (h3 : m0 = Json.obj mkvs)
    (h4 : lookupL mkvs "message" = some (Json.obj mo))
    (h5 : hasKeyL mo "audioMessage" = true) :
    receive_message data = .serverError
    ∧ messageProcessorMethods.contains "audio_to_text_n8n" = false := by
  refine ⟨?_, by decide⟩
  subst h1; subst h3
  have hk : hasKeyL kvs "message" = true := by
    unfold hasKeyL
    rw [h2]
    rfl
  have hcall : ∀ a, callUndefinedProcessorMethod "audio_to_text_n8n" a
      = .error .attributeError := fun _ => rfl
  suffices hE : ∃ e, receiveMessageE (Json.obj kvs) = Except.error e by
    obtain ⟨e, he⟩ := hE
    unfold receive_message
    rw [he]
  unfold receiveMessageE listFormatBranch
  simp only [pyIn, pyGetItem, pyGetD, pySetKey, hcall, bind, Except.bind, pure,
    Except.pure, hk, h2, h4, h5, Option.getD_some, ite_true, ite_false]
  repeat' split
  all_goals exact ⟨_, rfl⟩

/-- Message object of the C9 witness payload. -/
def c9mo : List (String × Json) :=
  [("audioMessage", Json.obj [("url", Json.str "https://example.com/v.ogg")])]

/-- First message record of the C9 witness payload. -/
def c9mkvs : List (String × Json) :=
  [("key", Json.obj [("remoteJid", Json.str "559100000000")]),
   ("message", Json.obj c9mo)]

/-- Top-level fields of the C9 witness payload. -/
def c9kvs : List (String × Json) :=
  [("message", Json.arr [Json.obj c9mkvs])]

/-- C9 witness: a concrete list-format audio payload ends in HTTP 500. -/
theorem C9_audio_path_attribute_error_witness :
    lookupL c9kvs "message" = some (Json.arr [Json.obj c9mkvs])
    ∧ lookupL c9mkvs "message" = some (Json.obj c9mo)
    ∧ hasKeyL c9mo "audioMessage" = true
    ∧ (receive_message (Json.obj c9kvs) = .serverError
       ∧ messageProcessorMethods.contains "audio_to_text_n8n" = false) :=
  ⟨rfl, rfl, rfl,
    C9_audio_path_attribute_error (Json.obj c9kvs) (Json.obj c9mkvs) c9kvs c9mkvs c9mo []
      rfl rfl rfl rfl rfl⟩
